import Mathlib

/-!
# Verification of the Phaser `BaseTweenData` timing state machine

Shallow embedding of `src/src/tweens/tween/BaseTweenData.js` (the per-property
tween timing unit). JavaScript numbers are modelled by `ℚ` (all the arithmetic
performed by this unit — sums, differences, products and one division — is
exact on the inputs the claims use, and `ℚ` keeps the divisions `diff / duration`
total and decidable). The mutable fields of the `BaseTweenData` instance, of its
owning `Tween` and of the targeted object are threaded explicitly as a record.
Event dispatch (`this.dispatchEvent`, defined outside `src/`) is modelled as an
append-only log, and the number of transitions into `PLAYING_FORWARD` is tracked
by a ghost counter `pfEntries` (not in the source; it changes no behaviour and
exists only to state counting properties).
-/

/-- The states of a TweenData, from `tween/const.js` (only referenced, not under
`src/`); the spec lists exactly these eight states. -/
inductive TweenState where
  | CREATED
  | DELAY
  | PENDING_RENDER
  | PLAYING_FORWARD
  | PLAYING_BACKWARD
  | HOLD_DELAY
  | REPEAT_DELAY
  | COMPLETE
deriving DecidableEq

/-- Lifecycle notifications dispatched by `BaseTweenData` (`Events.TWEEN_YOYO`,
`Events.TWEEN_REPEAT`). -/
inductive TweenEvent where
  | TWEEN_YOYO
  | TWEEN_REPEAT
deriving DecidableEq

/-- Modelled from the spec: `TWEEN_CONST.MAX`, the "very large sentinel" that
stands in for an unbounded repeat count (`tween/const.js` is not under `src/`). -/
def TWEEN_CONST_MAX : Int := 999999999999

/-- The target object, restricted to what one tween-data unit touches: the one
numeric property addressed by `key`, and the two flip toggles. -/
structure TweenTarget where
  value : ℚ
  flipX : Bool
  flipY : Bool
deriving DecidableEq

/-- The owning `Tween`'s fields that `BaseTweenData` reads or writes:
`duration`, `startDelay`, `isInfinite`, `totalTargets`. -/
structure Tween where
  duration : ℚ
  startDelay : ℚ
  isInfinite : Bool
  totalTargets : Nat
deriving DecidableEq

/-- A resolver callback `(target, key, value, index, total, tween) -> number`.
The target argument is represented by the targeted property's current value and
the (cyclic) tween argument is dropped: the spec requires resolvers to be pure
with respect to animation state. -/
abbrev Resolver := ℚ → String → ℚ → Nat → Nat → ℚ

/-- The `BaseTweenData` instance together with the pieces of its environment it
mutates (owning tween, target, event log). Field names follow the source;
`this.end` is `endValue` (`end` is a Lean keyword), `this.repeat` is `repeatCount`
(`repeat` clashes with the tactic keyword). `start`, `endValue`, `current`, `key`
and the `getStartValue` / `getEndValue` / `ease` callbacks live on the
`TweenData` subclass in the source; they are included here because
`BaseTweenData.onRepeat` and `reset` read and write them. -/
structure BaseTweenData where
  tween : Tween
  target : TweenTarget
  targetIndex : Nat
  key : String
  duration : ℚ
  totalDuration : ℚ
  delay : ℚ
  getDelay : Resolver
  yoyo : Bool
  hold : ℚ
  repeatCount : Int
  repeatDelay : ℚ
  repeatCounter : Int
  flipX : Bool
  flipY : Bool
  progress : ℚ
  elapsed : ℚ
  state : TweenState
  isCountdown : Bool
  start : ℚ
  endValue : ℚ
  current : ℚ
  getStartValue : Resolver
  getEndValue : Resolver
  ease : ℚ → ℚ
  events : List TweenEvent
  pfEntries : Nat

/-- Constructor body of `BaseTweenData` (the `duration <= 0 ? 0.01 : duration`
clamp is line 76 of the source). The value/callback fields set by the
`TweenData` subclass are taken as extra arguments. -/
def BaseTweenData.init (tween : Tween) (target : TweenTarget) (targetIndex : Nat)
    (key : String) (getEnd getStart : Resolver) (ease : ℚ → ℚ) (delay : Resolver)
    (duration : ℚ) (yoyo : Bool) (hold : ℚ) (rep : Int) (repeatDelay : ℚ)
    (flipX flipY : Bool) : BaseTweenData where
  tween := tween
  target := target
  targetIndex := targetIndex
  key := key
  duration := if duration ≤ 0 then 0.01 else duration
  totalDuration := 0
  delay := 0
  getDelay := delay
  yoyo := yoyo
  hold := hold
  repeatCount := rep
  repeatDelay := repeatDelay
  repeatCounter := 0
  flipX := flipX
  flipY := flipY
  progress := 0
  elapsed := 0
  state := TweenState.CREATED
  isCountdown := false
  start := 0
  endValue := 0
  current := 0
  getStartValue := getStart
  getEndValue := getEnd
  ease := ease
  events := []
  pfEntries := 0

/-- `setCreatedState`. -/
def setCreatedState (s : BaseTweenData) : BaseTweenData :=
  { s with state := TweenState.CREATED, isCountdown := false }

/-- `setDelayState`. -/
def setDelayState (s : BaseTweenData) : BaseTweenData :=
  { s with state := TweenState.DELAY, isCountdown := true }

/-- `setPendingRenderState`. -/
def setPendingRenderState (s : BaseTweenData) : BaseTweenData :=
  { s with state := TweenState.PENDING_RENDER, isCountdown := false }

/-- `setPlayingForwardState`; additionally bumps the ghost entry counter. -/
def setPlayingForwardState (s : BaseTweenData) : BaseTweenData :=
  { s with state := TweenState.PLAYING_FORWARD, isCountdown := false,
           pfEntries := s.pfEntries + 1 }

/-- `setPlayingBackwardState`. -/
def setPlayingBackwardState (s : BaseTweenData) : BaseTweenData :=
  { s with state := TweenState.PLAYING_BACKWARD, isCountdown := false }

/-- `setHoldState`. -/
def setHoldState (s : BaseTweenData) : BaseTweenData :=
  { s with state := TweenState.HOLD_DELAY, isCountdown := true }

/-- `setRepeatState`. -/
def setRepeatState (s : BaseTweenData) : BaseTweenData :=
  { s with state := TweenState.REPEAT_DELAY, isCountdown := true }

/-- `setCompleteState`. -/
def setCompleteState (s : BaseTweenData) : BaseTweenData :=
  { s with state := TweenState.COMPLETE, isCountdown := false }

/-- Modelled from the spec: `this.dispatchEvent` is defined on the `TweenData`
subclass (not under `src/`); the spec's notification sink is modelled as an
append-only log of dispatched events. -/
def dispatchEvent (s : BaseTweenData) (e : TweenEvent) : BaseTweenData :=
  { s with events := s.events ++ [e] }

/-- `onRepeat(diff, setStart, isYoyo)`, lines 584–651 of the source: handles a
repeat or yoyo boundary. The source mutates disjoint fields in sequence
(`elapsed`/`progress`, the flip toggles, `start`, then per branch
`repeatCounter`, `endValue`, `elapsed`, `current`, the target write and the
state); here each field's new value is computed once, which is equivalent
because no mutated field is read after being written except `start` (written
before `endValue` resolution, which receives it, exactly as in the source). -/
def onRepeat (s : BaseTweenData) (diff : ℚ) (setStart isYoyo : Bool) :
    BaseTweenData :=
  let totalTargets := s.tween.totalTargets
  let targetIndex := s.targetIndex
  let key := s.key
  let isTweenData : Bool := key ≠ "texture"
  -- lines 599–607: `if (this.flipX) target.toggleFlipX()`, same for `flipY`
  let target1 : TweenTarget :=
    { s.target with
      flipX := if s.flipX then ! s.target.flipX else s.target.flipX,
      flipY := if s.flipY then ! s.target.flipY else s.target.flipY }
  -- lines 609–612: conditional re-resolution of the start value
  let start1 : ℚ := if isTweenData && (setStart || isYoyo) then
      s.getStartValue target1.value key s.start targetIndex totalTargets
    else s.start
  if isYoyo then
    -- lines 614–621: yoyo branch, returns before the counter is touched
    dispatchEvent
      (setPlayingBackwardState
        { s with elapsed := diff, progress := diff / s.duration,
                 target := target1, start := start1 })
      TweenEvent.TWEEN_YOYO
  else
    -- line 623: `this.repeatCounter--`
    -- lines 626–629: conditional re-resolution of the end value
    let end1 : ℚ := if isTweenData then
        s.getEndValue target1.value key start1 targetIndex totalTargets
      else s.endValue
    if s.repeatDelay > 0 then
      -- lines 632–643: pause branch; `elapsed = repeatDelay - diff`, and for
      -- non-"texture" keys `current = start` is written to the target
      setRepeatState
        { s with elapsed := s.repeatDelay - diff, progress := diff / s.duration,
                 repeatCounter := s.repeatCounter - 1,
                 start := start1, endValue := end1,
                 current := if isTweenData then start1 else s.current,
                 target := if isTweenData then { target1 with value := start1 }
                   else target1 }
    else
      -- lines 645–650: immediate repeat
      dispatchEvent
        (setPlayingForwardState
          { s with elapsed := diff, progress := diff / s.duration,
                   repeatCounter := s.repeatCounter - 1,
                   start := start1, endValue := end1, target := target1 })
        TweenEvent.TWEEN_REPEAT

/-- `setStateFromEnd(diff)`, lines 459–473: the on-forward-end policy. -/
def setStateFromEnd (s : BaseTweenData) (diff : ℚ) : BaseTweenData :=
  if s.yoyo then
    onRepeat s diff true true
  else if s.repeatCounter > 0 then
    onRepeat s diff true false
  else
    setCompleteState s

/-- `setStateFromStart(diff)`, lines 485–495: the on-backward-end policy.
The source calls `onRepeat(diff, false)`; the omitted `isYoyo` argument is
`undefined`, which is falsy everywhere `onRepeat` tests it. -/
def setStateFromStart (s : BaseTweenData) (diff : ℚ) : BaseTweenData :=
  if s.repeatCounter > 0 then
    onRepeat s diff false false
  else
    setCompleteState s

/-- `reset()`, lines 505–568: recomputes delay, repeat counter, total duration,
publishes the summary to the owning tween and picks the initial state. As for
`onRepeat`, the source's sequential mutations of disjoint fields are written as
one record update; the `delay`, `t1`, `t2` and total-duration values and the
three conditional writes to the owning tween are exactly the source's. -/
def reset (s : BaseTweenData) : BaseTweenData :=
  let totalTargets := s.tween.totalTargets
  let targetIndex := s.targetIndex
  let key := s.key
  -- line 519: resolve the delay via the `getDelay` callback
  let delay1 : ℚ := s.getDelay s.target.value key 0 targetIndex totalTargets
  -- lines 527–536: `t1 = duration + hold (+ duration if yoyo)`, `t2 = t1 + repeatDelay`
  let t1 : ℚ := s.duration + s.hold + (if s.yoyo then s.duration else 0)
  let t2 : ℚ := t1 + s.repeatDelay
  -- lines 539–549: base total duration plus the repeat tail
  let totalDuration1 : ℚ := delay1 + t1 +
    (if s.repeatCount = -1 then t2 * (TWEEN_CONST_MAX : ℚ)
     else if s.repeatCount > 0 then t2 * (s.repeatCount : ℚ)
     else 0)
  { s with
    -- lines 514–515
    progress := 0,
    -- lines 562–567: `elapsed` stays 0 unless a positive delay restarts it
    elapsed := if delay1 > 0 then delay1 else 0,
    delay := delay1,
    -- line 521: repeat counter from `repeat`, `-1` mapped to the sentinel
    repeatCounter := if s.repeatCount = -1 then TWEEN_CONST_MAX else s.repeatCount,
    totalDuration := totalDuration1,
    -- lines 523 and 562–567: `PENDING_RENDER`, overridden by `DELAY` when delay > 0
    state := if delay1 > 0 then TweenState.DELAY else TweenState.PENDING_RENDER,
    isCountdown := if delay1 > 0 then true else false,
    -- lines 541–560: conditional writes into the owning tween
    tween := { s.tween with
      isInfinite := if s.repeatCount = -1 then true else s.tween.isInfinite,
      duration := if totalDuration1 > s.tween.duration then totalDuration1
        else s.tween.duration,
      startDelay := if delay1 < s.tween.startDelay then delay1
        else s.tween.startDelay } }

/-- Modelled from the spec: one playing step (forward or backward) of the
per-tick update contract of §4.1 — `TweenData.update` is not under `src/`.
Advances `elapsed` by `delta`; at or past the duration boundary writes the exact
end value (forward) or start value (backward) and invokes the corresponding
on-end policy with the overshoot `diff`; otherwise writes the eased
interpolation of the clamped progress. -/
def playStep (s : BaseTweenData) (delta : ℚ) : BaseTweenData :=
  let forward : Bool := s.state = TweenState.PLAYING_FORWARD
  let elapsed := s.elapsed + delta
  if elapsed ≥ s.duration then
    let diff := elapsed - s.duration
    let s1 : BaseTweenData := { s with elapsed := s.duration, progress := 1 }
    if forward then
      let s2 : BaseTweenData := { s1 with
        current := s1.endValue,
        target := { s1.target with value := s1.endValue } }
      if s2.hold > 0 then
        setHoldState { s2 with elapsed := s2.hold - diff }
      else
        setStateFromEnd s2 diff
    else
      let s2 : BaseTweenData := { s1 with
        current := s1.start,
        target := { s1.target with value := s1.start } }
      setStateFromStart s2 diff
  else
    let elapsed1 := if elapsed < 0 then 0 else elapsed
    let progress := elapsed1 / s.duration
    let v := s.ease progress
    let current := if forward then v * (s.endValue - s.start) + s.start
      else s.endValue - v * (s.endValue - s.start)
    { s with elapsed := elapsed1, progress := progress, current := current,
             target := { s.target with value := current } }

/-- Modelled from the spec: the per-tick `update(deltaMs)` contract of §4.1 —
`TweenData.update` is not under `src/`. Countdown states decrement their
remaining time and carry the negative remainder as overshoot; `PENDING_RENDER`
establishes the rendered start value and begins playing forward within the same
tick; playing states advance via `playStep`; `CREATED` and `COMPLETE` never
progress. -/
def update (s : BaseTweenData) (delta : ℚ) : BaseTweenData :=
  if s.state = TweenState.DELAY then
    let e := s.elapsed - delta
    if e ≤ 0 then
      setPendingRenderState { s with elapsed := |e| }
    else
      { s with elapsed := e }
  else if s.state = TweenState.PENDING_RENDER then
    let start := s.getStartValue s.target.value s.key s.target.value
      s.targetIndex s.tween.totalTargets
    let e := s.getEndValue s.target.value s.key start s.targetIndex
      s.tween.totalTargets
    let s1 : BaseTweenData := { s with
      start := start, endValue := e, current := start,
      target := { s.target with value := start } }
    playStep (setPlayingForwardState s1) delta
  else if s.state = TweenState.PLAYING_FORWARD ∨
      s.state = TweenState.PLAYING_BACKWARD then
    playStep s delta
  else if s.state = TweenState.REPEAT_DELAY then
    let e := s.elapsed - delta
    if e ≤ 0 then
      dispatchEvent (setPlayingForwardState { s with elapsed := |e| })
        TweenEvent.TWEEN_REPEAT
    else
      { s with elapsed := e }
  else if s.state = TweenState.HOLD_DELAY then
    let e := s.elapsed - delta
    if e ≤ 0 then
      setStateFromEnd { s with elapsed := |e| } |e|
    else
      { s with elapsed := e }
  else
    s

/-- Iterated `update` with a fixed per-tick delta. -/
def runUpdates (s : BaseTweenData) (delta : ℚ) : Nat → BaseTweenData
  | 0 => s
  | n + 1 => runUpdates (update s delta) delta n


/-! ## Concrete fixtures used by witnesses and counterexamples -/

/-- A constant resolver callback. -/
def constRes (q : ℚ) : Resolver := fun _ _ _ _ _ => q

/-- A generic concrete unit used to build witness inputs. -/
def baseUnit : BaseTweenData where
  tween := { duration := 0, startDelay := 0, isInfinite := false, totalTargets := 1 }
  target := { value := 0, flipX := false, flipY := false }
  targetIndex := 0
  key := "x"
  duration := 100
  totalDuration := 0
  delay := 0
  getDelay := constRes 0
  yoyo := false
  hold := 0
  repeatCount := 0
  repeatDelay := 0
  repeatCounter := 0
  flipX := false
  flipY := false
  progress := 0
  elapsed := 0
  state := TweenState.PLAYING_FORWARD
  isCountdown := false
  start := 0
  endValue := 100
  current := 0
  getStartValue := constRes 0
  getEndValue := constRes 100
  ease := id
  events := []
  pfEntries := 0

/-- Concrete input for the C1 counterexample: the reserved key `"texture"`,
a positive repeat delay, and target value, `current` and `start` all distinct. -/
def c1textureUnit : BaseTweenData :=
  { baseUnit with key := "texture", repeatDelay := 5, repeatCounter := 2,
                  start := 3, current := 9,
                  target := { value := 7, flipX := false, flipY := false } }

/-- Concrete input for the C1 amended claim's witness: an ordinary key. -/
def c1plainUnit : BaseTweenData :=
  { baseUnit with repeatDelay := 5, repeatCounter := 2, start := 3 }

/-- Concrete input for the C3 scenario: `duration = 100`, `yoyo = true`,
`repeat = 1`, `hold = 0`, `repeatDelay = 0`, linear ease, start `0`, end `100`,
after `reset()`. -/
def c3unit : BaseTweenData :=
  reset (BaseTweenData.init
    { duration := 0, startDelay := 0, isInfinite := false, totalTargets := 1 }
    { value := 0, flipX := false, flipY := false }
    0 "x" (constRes 100) (constRes 0) id (constRes 0) 100 true 0 1 0 false false)

/-- Concrete input for the C5 witness: `repeat = 2`, `yoyo = false`,
`hold = 0`, `repeatDelay = 0`, zero delay resolver. -/
def c5unit : BaseTweenData :=
  { baseUnit with repeatCount := 2, state := TweenState.CREATED }

/-- Concrete input for the C6 witness: unbounded repeat (`repeat = -1`). -/
def c6unit : BaseTweenData :=
  { baseUnit with repeatCount := -1, state := TweenState.CREATED }

/-! ## Helper lemmas: projections of `onRepeat` -/

/-- State reached by `onRepeat`: backward on a yoyo, repeat-delay pause when a
positive repeat delay is configured, otherwise straight back to forward. -/
theorem onRepeat_state (s : BaseTweenData) (diff : ℚ) (setStart isYoyo : Bool) :
    (onRepeat s diff setStart isYoyo).state =
      (if isYoyo then TweenState.PLAYING_BACKWARD
       else if s.repeatDelay > 0 then TweenState.REPEAT_DELAY
       else TweenState.PLAYING_FORWARD) := by
  simp only [onRepeat, setPlayingBackwardState, setPlayingForwardState, setRepeatState,
    dispatchEvent]
  split_ifs <;> rfl

/-- The repeat counter is decremented exactly on non-yoyo calls of `onRepeat`. -/
theorem onRepeat_repeatCounter (s : BaseTweenData) (diff : ℚ) (setStart isYoyo : Bool) :
    (onRepeat s diff setStart isYoyo).repeatCounter =
      (if isYoyo then s.repeatCounter else s.repeatCounter - 1) := by
  simp only [onRepeat, setPlayingBackwardState, setPlayingForwardState, setRepeatState,
    dispatchEvent]
  split_ifs <;> rfl

/-- Elapsed time after `onRepeat`: the carried overshoot `diff`, except that the
repeat-delay branch converts it into the remaining pause `repeatDelay - diff`. -/
theorem onRepeat_elapsed (s : BaseTweenData) (diff : ℚ) (setStart isYoyo : Bool) :
    (onRepeat s diff setStart isYoyo).elapsed =
      (if isYoyo then diff
       else if s.repeatDelay > 0 then s.repeatDelay - diff
       else diff) := by
  simp only [onRepeat, setPlayingBackwardState, setPlayingForwardState, setRepeatState,
    dispatchEvent]
  split_ifs <;> rfl

/-- `onRepeat` always records progress `diff / duration`. -/
theorem onRepeat_progress (s : BaseTweenData) (diff : ℚ) (setStart isYoyo : Bool) :
    (onRepeat s diff setStart isYoyo).progress = diff / s.duration := by
  simp only [onRepeat, setPlayingBackwardState, setPlayingForwardState, setRepeatState,
    dispatchEvent]
  split_ifs <;> rfl

/-- `onRepeat` never changes the configuration fields. -/
theorem onRepeat_config (s : BaseTweenData) (diff : ℚ) (setStart isYoyo : Bool) :
    (onRepeat s diff setStart isYoyo).duration = s.duration ∧
    (onRepeat s diff setStart isYoyo).yoyo = s.yoyo ∧
    (onRepeat s diff setStart isYoyo).hold = s.hold ∧
    (onRepeat s diff setStart isYoyo).repeatDelay = s.repeatDelay ∧
    (onRepeat s diff setStart isYoyo).repeatCount = s.repeatCount ∧
    (onRepeat s diff setStart isYoyo).key = s.key ∧
    (onRepeat s diff setStart isYoyo).flipX = s.flipX ∧
    (onRepeat s diff setStart isYoyo).flipY = s.flipY := by
  simp only [onRepeat, setPlayingBackwardState, setPlayingForwardState, setRepeatState,
    dispatchEvent]
  split_ifs <;> exact ⟨rfl, rfl, rfl, rfl, rfl, rfl, rfl, rfl⟩

/-- The ghost counter of transitions into `PLAYING_FORWARD` grows under
`onRepeat` exactly on the immediate-repeat branch. -/
theorem onRepeat_pfEntries (s : BaseTweenData) (diff : ℚ) (setStart isYoyo : Bool) :
    (onRepeat s diff setStart isYoyo).pfEntries =
      (if isYoyo then s.pfEntries
       else if s.repeatDelay > 0 then s.pfEntries
       else s.pfEntries + 1) := by
  simp only [onRepeat, setPlayingBackwardState, setPlayingForwardState, setRepeatState,
    dispatchEvent]
  split_ifs <;> rfl

/-- Events dispatched by one `onRepeat` call. -/
theorem onRepeat_events (s : BaseTweenData) (diff : ℚ) (setStart isYoyo : Bool) :
    (onRepeat s diff setStart isYoyo).events =
      s.events ++ (if isYoyo then [TweenEvent.TWEEN_YOYO]
        else if s.repeatDelay > 0 then []
        else [TweenEvent.TWEEN_REPEAT]) := by
  simp only [onRepeat, setPlayingBackwardState, setPlayingForwardState, setRepeatState,
    dispatchEvent]
  split_ifs <;> simp

/-! ## Helper lemmas: duration preservation and policy shape -/

/-- `reset` keeps the stored duration. -/
theorem reset_duration (s : BaseTweenData) : (reset s).duration = s.duration := rfl

/-- `setStateFromEnd` keeps the stored duration. -/
theorem setStateFromEnd_duration (s : BaseTweenData) (diff : ℚ) :
    (setStateFromEnd s diff).duration = s.duration := by
  simp only [setStateFromEnd, setCompleteState]
  split_ifs
  · exact (onRepeat_config s diff true true).1
  · exact (onRepeat_config s diff true false).1
  · rfl

/-- `setStateFromStart` keeps the stored duration. -/
theorem setStateFromStart_duration (s : BaseTweenData) (diff : ℚ) :
    (setStateFromStart s diff).duration = s.duration := by
  simp only [setStateFromStart, setCompleteState]
  split_ifs
  · exact (onRepeat_config s diff false false).1
  · rfl

/-- `playStep` keeps the stored duration. -/
theorem playStep_duration (s : BaseTweenData) (delta : ℚ) :
    (playStep s delta).duration = s.duration := by
  simp only [playStep, setHoldState]
  split_ifs <;>
    simp only [setStateFromEnd_duration, setStateFromStart_duration]

/-- `update` keeps the stored duration. -/
theorem update_duration (s : BaseTweenData) (delta : ℚ) :
    (update s delta).duration = s.duration := by
  simp only [update, setPendingRenderState, setPlayingForwardState, dispatchEvent]
  split_ifs <;>
    simp only [playStep_duration, setStateFromEnd_duration]

/-! ## Claims -/

/-- Claim C1 (counterexample): as stated, the claim fails for the reserved
property key `"texture"`. On a non-yoyo `onRepeat` with `repeatDelay > 0` the
unit does set `elapsed = repeatDelay - diff` and transition to `REPEAT_DELAY`,
but it neither snapshots `current := start` nor writes the start value to the
target: with `start = 3`, `current = 9` and target value `7`, both survive
unchanged and the target is not at the start value. -/
theorem onRepeat_texture_skips_target_write :
    (onRepeat c1textureUnit 1 true false).state = TweenState.REPEAT_DELAY ∧
    (onRepeat c1textureUnit 1 true false).elapsed = 4 ∧
    (onRepeat c1textureUnit 1 true false).start = 3 ∧
    (onRepeat c1textureUnit 1 true false).current = 9 ∧
    (onRepeat c1textureUnit 1 true false).target.value = 7 ∧
    (onRepeat c1textureUnit 1 true false).target.value ≠
      (onRepeat c1textureUnit 1 true false).start := by
  norm_num [onRepeat, c1textureUnit, baseUnit, constRes, setRepeatState,
    dispatchEvent, setPlayingForwardState, setPlayingBackwardState]

/-- Claim C1 (amended): for every call of `onRepeat(diff, setStart, isYoyo)`
taking the non-yoyo repeat branch with `repeatDelayMs > 0` on a property key
other than the reserved sentinel `"texture"`, the unit sets `elapsed` to
`repeatDelay - diff`, sets `current` to the (possibly re-resolved) start value,
writes that value to the target's property immediately, and transitions to
`REPEAT_DELAY`; for the key `"texture"` the `elapsed` and state updates still
happen but the `current` snapshot and the target write are skipped. -/
theorem onRepeat_repeatDelay_writes_start (s : BaseTweenData) (diff : ℚ)
    (setStart : Bool) (hkey : s.key ≠ "texture") (hrd : s.repeatDelay > 0) :
    (onRepeat s diff setStart false).elapsed = s.repeatDelay - diff ∧
    (onRepeat s diff setStart false).current = (onRepeat s diff setStart false).start ∧
    (onRepeat s diff setStart false).target.value =
      (onRepeat s diff setStart false).start ∧
    (onRepeat s diff setStart false).state = TweenState.REPEAT_DELAY ∧
    (onRepeat s diff setStart false).isCountdown = true := by
  simp only [onRepeat, setRepeatState, dispatchEvent, setPlayingForwardState,
    setPlayingBackwardState]
  simp [hkey, hrd]

/-- Claim C1 (amended, witness): the amended claim at the concrete input
`c1plainUnit` (key `"x"`, repeat delay `5`), with `diff = 1`. -/
theorem onRepeat_repeatDelay_writes_start_witness :
    c1plainUnit.key ≠ "texture" ∧ c1plainUnit.repeatDelay > 0 ∧
    ((onRepeat c1plainUnit 1 true false).elapsed =
        c1plainUnit.repeatDelay - 1 ∧
      (onRepeat c1plainUnit 1 true false).current =
        (onRepeat c1plainUnit 1 true false).start ∧
      (onRepeat c1plainUnit 1 true false).target.value =
        (onRepeat c1plainUnit 1 true false).start ∧
      (onRepeat c1plainUnit 1 true false).state = TweenState.REPEAT_DELAY ∧
      (onRepeat c1plainUnit 1 true false).isCountdown = true) :=
  ⟨by decide, by decide,
    onRepeat_repeatDelay_writes_start c1plainUnit 1 true (by decide) (by decide)⟩

/-- Claim C2: the on-forward-end policy tests `yoyo` first (entering the yoyo
branch of the repeat handler regardless of the repeat counter), then a positive
repeat counter (entering the repeat handler with `setStart = true`), and only
otherwise completes; the on-backward-end policy enters the repeat handler with
`setStart = false` on a positive counter and completes otherwise. -/
theorem setStateFrom_policy_order (s : BaseTweenData) (diff : ℚ) :
    (s.yoyo = true → setStateFromEnd s diff = onRepeat s diff true true) ∧
    (s.yoyo = false → 0 < s.repeatCounter →
      setStateFromEnd s diff = onRepeat s diff true false) ∧
    (s.yoyo = false → s.repeatCounter ≤ 0 →
      setStateFromEnd s diff = setCompleteState s) ∧
    (0 < s.repeatCounter → setStateFromStart s diff = onRepeat s diff false false) ∧
    (s.repeatCounter ≤ 0 → setStateFromStart s diff = setCompleteState s) := by
  refine ⟨fun hy => ?_, fun hy hc => ?_, fun hy hc => ?_, fun hc => ?_, fun hc => ?_⟩
  · simp [setStateFromEnd, hy]
  · simp [setStateFromEnd, hy, hc]
  · simp [setStateFromEnd, hy, not_lt.mpr hc]
  · simp [setStateFromStart, hc]
  · simp [setStateFromStart, not_lt.mpr hc]

/-- Claim C2 (witness): the policy order at concrete inputs — a yoyo unit with
an exhausted counter still yoyos, a non-yoyo unit with counter `2` repeats, and
a non-yoyo unit with counter `0` completes (same for the backward policy). -/
theorem setStateFrom_policy_order_witness :
    setStateFromEnd { baseUnit with yoyo := true } 1 =
      onRepeat { baseUnit with yoyo := true } 1 true true ∧
    setStateFromEnd { baseUnit with repeatCounter := 2 } 1 =
      onRepeat { baseUnit with repeatCounter := 2 } 1 true false ∧
    setStateFromEnd baseUnit 1 = setCompleteState baseUnit ∧
    setStateFromStart { baseUnit with repeatCounter := 2 } 1 =
      onRepeat { baseUnit with repeatCounter := 2 } 1 false false ∧
    setStateFromStart baseUnit 1 = setCompleteState baseUnit :=
  ⟨(setStateFrom_policy_order { baseUnit with yoyo := true } 1).1 rfl,
   (setStateFrom_policy_order { baseUnit with repeatCounter := 2 } 1).2.1 rfl
     (by decide),
   (setStateFrom_policy_order baseUnit 1).2.2.1 rfl (by decide),
   (setStateFrom_policy_order { baseUnit with repeatCounter := 2 } 1).2.2.2.1
     (by decide),
   (setStateFrom_policy_order baseUnit 1).2.2.2.2 (by decide)⟩

/-- Claim C4: overshoot conservation — when a forward pass ends with overshoot
`diff = k` (`0 < k < duration`) and the unit yoyos to `PLAYING_BACKWARD`, or
repeats with `repeatDelay = 0` straight back to `PLAYING_FORWARD`, the new
`elapsed` is exactly `k` and the new `progress` is `k / duration`; the
overshoot is carried, not reset to `0`. -/
theorem overshoot_carried (s : BaseTweenData) (k : ℚ) (setStart : Bool)
    (hk0 : 0 < k) (hkd : k < s.duration) :
    ((onRepeat s k setStart true).elapsed = k ∧
     (onRepeat s k setStart true).progress = k / s.duration ∧
     (onRepeat s k setStart true).state = TweenState.PLAYING_BACKWARD) ∧
    (s.repeatDelay ≤ 0 →
      (onRepeat s k setStart false).elapsed = k ∧
      (onRepeat s k setStart false).progress = k / s.duration ∧
      (onRepeat s k setStart false).state = TweenState.PLAYING_FORWARD) := by
  constructor
  · exact ⟨by simp [onRepeat_elapsed], onRepeat_progress s k setStart true,
      by simp [onRepeat_state]⟩
  · intro hrd
    exact ⟨by simp [onRepeat_elapsed, not_lt.mpr hrd],
      onRepeat_progress s k setStart false,
      by simp [onRepeat_state, not_lt.mpr hrd]⟩

/-- Claim C4 (witness): the overshoot `k = 30` on the concrete unit
(`duration = 100`, `repeatDelay = 0`) is carried by both the yoyo and the
immediate-repeat transitions. -/
theorem overshoot_carried_witness :
    ((onRepeat baseUnit 30 true true).elapsed = 30 ∧
     (onRepeat baseUnit 30 true true).progress = 30 / baseUnit.duration ∧
     (onRepeat baseUnit 30 true true).state = TweenState.PLAYING_BACKWARD) ∧
    ((onRepeat baseUnit 30 false false).elapsed = 30 ∧
     (onRepeat baseUnit 30 false false).progress = 30 / baseUnit.duration ∧
     (onRepeat baseUnit 30 false false).state = TweenState.PLAYING_FORWARD) :=
  ⟨(overshoot_carried baseUnit 30 true (by decide) (by decide)).1,
   (overshoot_carried baseUnit 30 false (by decide) (by decide)).2 (by decide)⟩

/-- Claim C9: a configured duration ≤ 0 is stored as the positive epsilon
`0.01` and a positive one is stored unchanged, so the stored duration is
positive from construction on, and none of `reset`, `update` or `onRepeat`
ever changes it — the divisor in every `progress = elapsed / duration`
computation is the positive constructor-clamped value. -/
theorem duration_clamped_positive :
    (∀ (tw : Tween) (tg : TweenTarget) (ti : Nat) (key : String)
        (ge gs : Resolver) (ea : ℚ → ℚ) (de : Resolver) (dur : ℚ) (yo : Bool)
        (ho : ℚ) (rep : Int) (rd : ℚ) (fx fy : Bool),
      (BaseTweenData.init tw tg ti key ge gs ea de dur yo ho rep rd fx fy).duration
          = (if dur ≤ 0 then (0.01 : ℚ) else dur) ∧
      0 < (BaseTweenData.init tw tg ti key ge gs ea de dur yo ho rep rd fx fy).duration) ∧
    (∀ s : BaseTweenData, (reset s).duration = s.duration) ∧
    (∀ (s : BaseTweenData) (delta : ℚ), (update s delta).duration = s.duration) ∧
    (∀ (s : BaseTweenData) (diff : ℚ) (setStart isYoyo : Bool),
      (onRepeat s diff setStart isYoyo).duration = s.duration) := by
  refine ⟨fun tw tg ti key ge gs ea de dur yo ho rep rd fx fy => ⟨rfl, ?_⟩,
    reset_duration, update_duration,
    fun s diff setStart isYoyo => (onRepeat_config s diff setStart isYoyo).1⟩
  simp only [BaseTweenData.init]
  split_ifs with h
  · norm_num
  · exact lt_of_not_le h

/-- Claim C10: `onRepeat` dispatches at most one notification per invocation —
the yoyo notification exactly when `isYoyo` is true (with the transition to
`PLAYING_BACKWARD`), the repeat notification exactly when `isYoyo` is false and
`repeatDelay ≤ 0` (with the immediate transition to `PLAYING_FORWARD`), and no
notification at all when entering `REPEAT_DELAY`. -/
theorem onRepeat_dispatch (s : BaseTweenData) (diff : ℚ) (setStart isYoyo : Bool) :
    (onRepeat s diff setStart isYoyo).events =
      s.events ++ (if isYoyo then [TweenEvent.TWEEN_YOYO]
        else if s.repeatDelay > 0 then []
        else [TweenEvent.TWEEN_REPEAT]) ∧
    (onRepeat s diff setStart isYoyo).events.length ≤ s.events.length + 1 ∧
    (isYoyo = true →
      (onRepeat s diff setStart isYoyo).state = TweenState.PLAYING_BACKWARD) ∧
    (isYoyo = false → s.repeatDelay > 0 →
      (onRepeat s diff setStart isYoyo).state = TweenState.REPEAT_DELAY) ∧
    (isYoyo = false → s.repeatDelay ≤ 0 →
      (onRepeat s diff setStart isYoyo).state = TweenState.PLAYING_FORWARD) := by
  refine ⟨onRepeat_events s diff setStart isYoyo, ?_, fun hy => ?_,
    fun hy hrd => ?_, fun hy hrd => ?_⟩
  · rw [onRepeat_events]
    simp only [List.length_append]
    split_ifs <;> simp
  · simp [onRepeat_state, hy]
  · simp [onRepeat_state, hy, hrd]
  · simp [onRepeat_state, hy, not_lt.mpr hrd]

/-- Claim C10 (witness): the dispatch discipline at concrete inputs — a yoyo
call appends exactly the yoyo event, a repeat-delay call appends nothing, and
an immediate repeat appends exactly the repeat event. -/
theorem onRepeat_dispatch_witness :
    (onRepeat baseUnit 1 true true).state = TweenState.PLAYING_BACKWARD ∧
    (onRepeat c1plainUnit 1 true false).state = TweenState.REPEAT_DELAY ∧
    (onRepeat baseUnit 1 true false).state = TweenState.PLAYING_FORWARD ∧
    (onRepeat c1plainUnit 1 true false).events = c1plainUnit.events ++
      (if (false : Bool) then [TweenEvent.TWEEN_YOYO]
       else if c1plainUnit.repeatDelay > 0 then []
       else [TweenEvent.TWEEN_REPEAT]) :=
  ⟨(onRepeat_dispatch baseUnit 1 true true).2.2.1 rfl,
   (onRepeat_dispatch c1plainUnit 1 true false).2.2.2.1 rfl (by decide),
   (onRepeat_dispatch baseUnit 1 true false).2.2.2.2 rfl (by decide),
   (onRepeat_dispatch c1plainUnit 1 true false).1⟩

/-- Claim C7: `reset()` is idempotent — a second `reset()` with no update in
between (resolvers are pure functions of their arguments in this model, as the
spec requires) recomputes `totalDuration`, `delay`, `repeatCounter`, `elapsed`,
`progress` and the state from inputs the first `reset()` did not change, so all
of them are identical, and the resulting state is `DELAY` exactly when the
resolved delay is positive and `PENDING_RENDER` otherwise. -/
theorem reset_idempotent (s : BaseTweenData) :
    (reset (reset s)).totalDuration = (reset s).totalDuration ∧
    (reset (reset s)).delay = (reset s).delay ∧
    (reset (reset s)).repeatCounter = (reset s).repeatCounter ∧
    (reset (reset s)).elapsed = (reset s).elapsed ∧
    (reset (reset s)).progress = (reset s).progress ∧
    (reset (reset s)).state = (reset s).state ∧
    (reset s).state = (if (reset s).delay > 0 then TweenState.DELAY
      else TweenState.PENDING_RENDER) :=
  ⟨rfl, rfl, rfl, rfl, rfl, rfl, rfl⟩

/-- Claim C8: every `reset()` publishes the unit's summary upward by a max/min
fold — the owning tween's `duration` becomes the maximum of its current value
and the unit's new `totalDuration`, its `startDelay` becomes the minimum of its
current value and the unit's new `delay`; so `reset` never decreases the
owner's duration and never increases its start delay, and on an exact tie the
strict comparisons of the source keep the owner's existing value. -/
theorem reset_publishes_summary (s : BaseTweenData) :
    (reset s).tween.duration = max s.tween.duration (reset s).totalDuration ∧
    (reset s).tween.startDelay = min s.tween.startDelay (reset s).delay ∧
    s.tween.duration ≤ (reset s).tween.duration ∧
    (reset s).tween.startDelay ≤ s.tween.startDelay := by
  have hd : (reset s).tween.duration = max s.tween.duration (reset s).totalDuration := by
    show (if (reset s).totalDuration > s.tween.duration then (reset s).totalDuration
      else s.tween.duration) = max s.tween.duration (reset s).totalDuration
    rcases le_or_lt (reset s).totalDuration s.tween.duration with h | h
    · rw [if_neg (not_lt.mpr h), max_eq_left h]
    · rw [if_pos h, max_eq_right h.le]
  have hs : (reset s).tween.startDelay = min s.tween.startDelay (reset s).delay := by
    show (if (reset s).delay < s.tween.startDelay then (reset s).delay
      else s.tween.startDelay) = min s.tween.startDelay (reset s).delay
    rcases lt_or_le (reset s).delay s.tween.startDelay with h | h
    · rw [if_pos h, min_eq_right h.le]
    · rw [if_neg (not_lt.mpr h), min_eq_left h]
  exact ⟨hd, hs, hd ▸ le_max_left _ _, hs ▸ min_le_left _ _⟩

/-- Claim C3: a yoyo bounce never decrements the repeat counter — `onRepeat`
with `isYoyo = true` transitions to `PLAYING_BACKWARD`, dispatches the yoyo
notification and returns with `repeatCounter` untouched. Consequently the
concrete unit with `duration = 100`, `yoyo`, `repeat = 1`, `hold = 0`,
`repeatDelay = 0` driven by four `update(100)` calls runs
`PLAYING_FORWARD → PLAYING_BACKWARD → PLAYING_FORWARD → PLAYING_BACKWARD →
COMPLETE`. -/
theorem yoyo_preserves_counter :
    (∀ (s : BaseTweenData) (diff : ℚ) (setStart : Bool),
      (onRepeat s diff setStart true).repeatCounter = s.repeatCounter ∧
      (onRepeat s diff setStart true).state = TweenState.PLAYING_BACKWARD ∧
      (onRepeat s diff setStart true).events = s.events ++ [TweenEvent.TWEEN_YOYO]) ∧
    ((update c3unit 100).state = TweenState.PLAYING_BACKWARD ∧
     (update (update c3unit 100) 100).state = TweenState.PLAYING_FORWARD ∧
     (update (update (update c3unit 100) 100) 100).state =
       TweenState.PLAYING_BACKWARD ∧
     (update (update (update (update c3unit 100) 100) 100) 100).state =
       TweenState.COMPLETE) := by
  constructor
  · intro s diff setStart
    exact ⟨by simp [onRepeat_repeatCounter], by simp [onRepeat_state],
      by simp [onRepeat_events]⟩
  · iterate 8
      try norm_num [c3unit, update, playStep, onRepeat, reset, BaseTweenData.init,
        setStateFromEnd, setStateFromStart, setPendingRenderState,
        setPlayingForwardState, setPlayingBackwardState, setCompleteState,
        setRepeatState, setHoldState, setDelayState, dispatchEvent,
        TWEEN_CONST_MAX, constRes]
      try simp


/-! ## Helper lemmas: one full forward pass under `update` -/

/-- Hitting the forward boundary exactly (playing forward with `elapsed = 0`
and a tick of one full duration) on a non-yoyo unit with no hold and no repeat
delay: a positive repeat counter re-enters `PLAYING_FORWARD` with the counter
decremented once, an exhausted counter completes. -/
theorem playStep_forward_boundary (s : BaseTweenData)
    (hst : s.state = TweenState.PLAYING_FORWARD) (hel : s.elapsed = 0)
    (hy : s.yoyo = false) (hh : s.hold = 0) (hrd : s.repeatDelay = 0) :
    (0 < s.repeatCounter →
      (playStep s s.duration).state = TweenState.PLAYING_FORWARD ∧
      (playStep s s.duration).elapsed = 0 ∧
      (playStep s s.duration).yoyo = false ∧
      (playStep s s.duration).hold = 0 ∧
      (playStep s s.duration).repeatDelay = 0 ∧
      (playStep s s.duration).repeatCounter = s.repeatCounter - 1 ∧
      (playStep s s.duration).duration = s.duration ∧
      (playStep s s.duration).pfEntries = s.pfEntries + 1) ∧
    (s.repeatCounter ≤ 0 →
      (playStep s s.duration).state = TweenState.COMPLETE ∧
      (playStep s s.duration).pfEntries = s.pfEntries) := by
  have h2 : playStep s s.duration = setStateFromEnd
      { s with elapsed := s.duration, progress := 1,
               current := s.endValue,
               target := { s.target with value := s.endValue } } 0 := by
    simp only [playStep, hst, hel, hh, zero_add, ge_iff_le, le_refl, if_true,
      sub_self]
    simp
  constructor
  · intro hc
    rw [h2]
    simp only [setStateFromEnd, setCompleteState]
    rw [if_neg (by simp [hy]), if_pos (by simpa using hc)]
    refine ⟨?_, ?_, ?_, ?_, ?_, ?_, ?_, ?_⟩
    · simp [onRepeat_state, hrd]
    · simp [onRepeat_elapsed, hrd]
    · rw [(onRepeat_config _ 0 true false).2.1]; exact hy
    · rw [(onRepeat_config _ 0 true false).2.2.1]; exact hh
    · rw [(onRepeat_config _ 0 true false).2.2.2.1]; exact hrd
    · simpa using onRepeat_repeatCounter _ 0 true false
    · simpa using (onRepeat_config _ 0 true false).1
    · simp [onRepeat_pfEntries, hrd]
  · intro hc
    rw [h2]
    simp only [setStateFromEnd, setCompleteState]
    rw [if_neg (by simp [hy]), if_neg (by simpa using not_lt.mpr hc)]
    exact ⟨rfl, rfl⟩

/-- The same forward-boundary step expressed on `update`. -/
theorem update_forward_step (s : BaseTweenData) (d : ℚ) (hd : d = s.duration)
    (hst : s.state = TweenState.PLAYING_FORWARD) (hel : s.elapsed = 0)
    (hy : s.yoyo = false) (hh : s.hold = 0) (hrd : s.repeatDelay = 0) :
    (0 < s.repeatCounter →
      (update s d).state = TweenState.PLAYING_FORWARD ∧
      (update s d).elapsed = 0 ∧
      (update s d).yoyo = false ∧
      (update s d).hold = 0 ∧
      (update s d).repeatDelay = 0 ∧
      (update s d).repeatCounter = s.repeatCounter - 1 ∧
      (update s d).duration = s.duration ∧
      (update s d).pfEntries = s.pfEntries + 1) ∧
    (s.repeatCounter ≤ 0 →
      (update s d).state = TweenState.COMPLETE ∧
      (update s d).pfEntries = s.pfEntries) := by
  subst hd
  have hu : update s s.duration = playStep s s.duration := by
    simp [update, hst]
  rw [hu]
  exact playStep_forward_boundary s hst hel hy hh hrd

/-- The first tick of a unit in `PENDING_RENDER`: the rendered start value is
established and the same tick plays one full forward pass, so `PLAYING_FORWARD`
is entered once by the render transition and (on a positive counter) once more
by the immediate repeat. -/
theorem update_pendingRender_step (s : BaseTweenData) (d : ℚ) (hd : d = s.duration)
    (hst : s.state = TweenState.PENDING_RENDER) (hel : s.elapsed = 0)
    (hy : s.yoyo = false) (hh : s.hold = 0) (hrd : s.repeatDelay = 0) :
    (0 < s.repeatCounter →
      (update s d).state = TweenState.PLAYING_FORWARD ∧
      (update s d).elapsed = 0 ∧
      (update s d).yoyo = false ∧
      (update s d).hold = 0 ∧
      (update s d).repeatDelay = 0 ∧
      (update s d).repeatCounter = s.repeatCounter - 1 ∧
      (update s d).duration = s.duration ∧
      (update s d).pfEntries = s.pfEntries + 2) ∧
    (s.repeatCounter ≤ 0 →
      (update s d).state = TweenState.COMPLETE ∧
      (update s d).pfEntries = s.pfEntries + 1) := by
  subst hd
  set s1 : BaseTweenData := setPlayingForwardState
    { s with
      start := s.getStartValue s.target.value s.key s.target.value
        s.targetIndex s.tween.totalTargets,
      endValue := s.getEndValue s.target.value s.key
        (s.getStartValue s.target.value s.key s.target.value
          s.targetIndex s.tween.totalTargets) s.targetIndex s.tween.totalTargets,
      current := s.getStartValue s.target.value s.key s.target.value
        s.targetIndex s.tween.totalTargets,
      target := { s.target with
        value := s.getStartValue s.target.value s.key s.target.value
          s.targetIndex s.tween.totalTargets } } with hs1
  have hu : update s s.duration = playStep s1 s.duration := by
    simp [update, hst, hs1, setPlayingForwardState]
  rw [hu]
  have hb := playStep_forward_boundary s1 rfl hel hy hh hrd
  exact hb

/-- Driving a steady forward unit with `n` remaining repeats by full-duration
ticks: after `n + 1` ticks it is `COMPLETE`, having entered `PLAYING_FORWARD`
exactly `n` more times, and it is still `PLAYING_FORWARD` after every earlier
tick. -/
theorem runUpdates_steady (n : Nat) : ∀ (s : BaseTweenData) (d : ℚ),
    d = s.duration →
    s.state = TweenState.PLAYING_FORWARD → s.elapsed = 0 → s.yoyo = false →
    s.hold = 0 → s.repeatDelay = 0 → s.repeatCounter = (n : Int) →
    (runUpdates s d (n + 1)).state = TweenState.COMPLETE ∧
    (runUpdates s d (n + 1)).pfEntries = s.pfEntries + n ∧
    (∀ k, k ≤ n → (runUpdates s d k).state = TweenState.PLAYING_FORWARD) := by
  induction n with
  | zero =>
    intro s d hd h1 h2 h3 h4 h5 h6
    have hz := (update_forward_step s d hd h1 h2 h3 h4 h5).2 (by omega)
    refine ⟨hz.1, by simpa using hz.2, ?_⟩
    intro k hk
    interval_cases k
    exact h1
  | succ m ih =>
    intro s d hd h1 h2 h3 h4 h5 h6
    have hpos : 0 < s.repeatCounter := by omega
    have hstep := (update_forward_step s d hd h1 h2 h3 h4 h5).1 hpos
    have hcnt : (update s d).repeatCounter = (m : Int) := by
      rw [hstep.2.2.2.2.2.1, h6]; push_cast; ring
    have hd2 : d = (update s d).duration := by
      rw [hstep.2.2.2.2.2.2.1, hd]
    have hih := ih (update s d) d hd2 hstep.1 hstep.2.1 hstep.2.2.1
      hstep.2.2.2.1 hstep.2.2.2.2.1 hcnt
    refine ⟨hih.1, ?_, ?_⟩
    · show (runUpdates (update s d) d (m + 1)).pfEntries = s.pfEntries + (m + 1)
      rw [hih.2.1, hstep.2.2.2.2.2.2.2]
      omega
    · intro k hk
      match k with
      | 0 => exact h1
      | j + 1 => exact hih.2.2 j (by omega)

/-- Claim C5: a unit configured with `repeat = N ≥ 0`, `yoyo = false`,
`hold = 0`, `repeatDelay = 0` (and a delay resolving to `0`), driven from
`reset()` by full-duration ticks, reaches `COMPLETE` exactly at tick `N + 1`
and enters the `PLAYING_FORWARD` state exactly `N + 1` times before that (the
ghost counter `pfEntries` counts the transitions): the initial pass plus one
per repeat, the counter being decremented exactly once per non-yoyo repeat. -/
theorem repeat_plays_N_plus_1 (s : BaseTweenData) (N : Nat)
    (hrep : s.repeatCount = (N : Int)) (hy : s.yoyo = false) (hh : s.hold = 0)
    (hrd : s.repeatDelay = 0)
    (hdel : s.getDelay s.target.value s.key 0 s.targetIndex s.tween.totalTargets = 0)
    (hpf : s.pfEntries = 0) :
    (runUpdates (reset s) s.duration (N + 1)).state = TweenState.COMPLETE ∧
    (runUpdates (reset s) s.duration (N + 1)).pfEntries = N + 1 ∧
    (∀ k, k ≤ N → (runUpdates (reset s) s.duration k).state ≠ TweenState.COMPLETE) := by
  have hst : (reset s).state = TweenState.PENDING_RENDER := by
    show (if s.getDelay s.target.value s.key 0 s.targetIndex s.tween.totalTargets > 0
      then TweenState.DELAY else TweenState.PENDING_RENDER) = TweenState.PENDING_RENDER
    rw [hdel]
    norm_num
  have hel : (reset s).elapsed = 0 := by
    show (if s.getDelay s.target.value s.key 0 s.targetIndex s.tween.totalTargets > 0
      then s.getDelay s.target.value s.key 0 s.targetIndex s.tween.totalTargets
      else 0) = 0
    rw [hdel]
    norm_num
  have hcnt : (reset s).repeatCounter = (N : Int) := by
    show (if s.repeatCount = -1 then TWEEN_CONST_MAX else s.repeatCount) = (N : Int)
    rw [hrep, if_neg (by omega)]
  have hy2 : (reset s).yoyo = false := hy
  have hh2 : (reset s).hold = 0 := hh
  have hrd2 : (reset s).repeatDelay = 0 := hrd
  have hpf2 : (reset s).pfEntries = 0 := hpf
  have hd : s.duration = (reset s).duration := rfl
  match N with
  | 0 =>
    have hz := (update_pendingRender_step (reset s) s.duration hd hst hel
      hy2 hh2 hrd2).2 (by omega)
    refine ⟨hz.1, ?_, ?_⟩
    · show (update (reset s) s.duration).pfEntries = 0 + 1
      rw [hz.2, hpf2]
    · intro k hk
      interval_cases k
      rw [show runUpdates (reset s) s.duration 0 = reset s from rfl, hst]
      simp
  | M + 1 =>
    have hpos : 0 < (reset s).repeatCounter := by omega
    have hstep := (update_pendingRender_step (reset s) s.duration hd hst hel
      hy2 hh2 hrd2).1 hpos
    have hcnt2 : (update (reset s) s.duration).repeatCounter = (M : Int) := by
      rw [hstep.2.2.2.2.2.1, hcnt]; push_cast; ring
    have hd2 : s.duration = (update (reset s) s.duration).duration := by
      rw [hstep.2.2.2.2.2.2.1]
      exact hd
    have hih := runUpdates_steady M (update (reset s) s.duration) s.duration hd2
      hstep.1 hstep.2.1 hstep.2.2.1 hstep.2.2.2.1 hstep.2.2.2.2.1 hcnt2
    refine ⟨hih.1, ?_, ?_⟩
    · show (runUpdates (update (reset s) s.duration) s.duration (M + 1)).pfEntries
        = (M + 1) + 1
      rw [hih.2.1, hstep.2.2.2.2.2.2.2, hpf2]
      omega
    · intro k hk
      match k with
      | 0 =>
        rw [show runUpdates (reset s) s.duration 0 = reset s from rfl, hst]
        simp
      | j + 1 =>
        show (runUpdates (update (reset s) s.duration) s.duration j).state ≠
          TweenState.COMPLETE
        rw [hih.2.2 j (by omega)]
        simp

/-- Claim C5 (witness): the concrete unit with `repeat = 2` completes at the
third full-duration tick, having entered `PLAYING_FORWARD` three times, and is
not complete after the second tick. -/
theorem repeat_plays_N_plus_1_witness :
    c5unit.repeatCount = ((2 : Nat) : Int) ∧
    (runUpdates (reset c5unit) c5unit.duration (2 + 1)).state =
      TweenState.COMPLETE ∧
    (runUpdates (reset c5unit) c5unit.duration (2 + 1)).pfEntries = 2 + 1 ∧
    (runUpdates (reset c5unit) c5unit.duration 2).state ≠ TweenState.COMPLETE :=
  ⟨by decide,
   (repeat_plays_N_plus_1 c5unit 2 (by decide) (by decide) (by decide)
     (by decide) rfl (by decide)).1,
   (repeat_plays_N_plus_1 c5unit 2 (by decide) (by decide) (by decide)
     (by decide) rfl (by decide)).2.1,
   (repeat_plays_N_plus_1 c5unit 2 (by decide) (by decide) (by decide)
     (by decide) rfl (by decide)).2.2 2 (by omega)⟩


/-! ## Helper lemmas: the repeat counter under arbitrary ticks -/

/-- `onRepeat` never produces the `COMPLETE` state. -/
theorem onRepeat_ne_complete (s : BaseTweenData) (diff : ℚ) (setStart isYoyo : Bool) :
    (onRepeat s diff setStart isYoyo).state ≠ TweenState.COMPLETE := by
  rw [onRepeat_state]
  split_ifs <;> simp

/-- One on-forward-end decision lowers the repeat counter by at most one, and
cannot complete while the counter is positive. -/
theorem setStateFromEnd_spec (s : BaseTweenData) (diff : ℚ) :
    s.repeatCounter - 1 ≤ (setStateFromEnd s diff).repeatCounter ∧
    (0 < s.repeatCounter →
      (setStateFromEnd s diff).state ≠ TweenState.COMPLETE) := by
  constructor
  · simp only [setStateFromEnd, setCompleteState]
    split_ifs <;>
      first
        | (rw [onRepeat_repeatCounter]; omega)
        | (show s.repeatCounter - 1 ≤ s.repeatCounter; omega)
  · intro hpos
    simp only [setStateFromEnd, setCompleteState]
    split_ifs <;> exact onRepeat_ne_complete _ _ _ _

/-- One on-backward-end decision lowers the repeat counter by at most one, and
cannot complete while the counter is positive. -/
theorem setStateFromStart_spec (s : BaseTweenData) (diff : ℚ) :
    s.repeatCounter - 1 ≤ (setStateFromStart s diff).repeatCounter ∧
    (0 < s.repeatCounter →
      (setStateFromStart s diff).state ≠ TweenState.COMPLETE) := by
  constructor
  · simp only [setStateFromStart, setCompleteState]
    split_ifs <;>
      first
        | (rw [onRepeat_repeatCounter]; omega)
        | (show s.repeatCounter - 1 ≤ s.repeatCounter; omega)
  · intro hpos
    simp only [setStateFromStart, setCompleteState]
    split_ifs <;> exact onRepeat_ne_complete _ _ _ _

/-- One playing step lowers the repeat counter by at most one, and cannot
complete a non-complete unit whose counter is positive. -/
theorem playStep_spec (s : BaseTweenData) (delta : ℚ) :
    s.repeatCounter - 1 ≤ (playStep s delta).repeatCounter ∧
    (s.state ≠ TweenState.COMPLETE → 0 < s.repeatCounter →
      (playStep s delta).state ≠ TweenState.COMPLETE) := by
  constructor
  · simp only [playStep, setHoldState]
    split_ifs <;>
      first
        | exact (setStateFromEnd_spec _ _).1
        | exact (setStateFromStart_spec _ _).1
        | (show s.repeatCounter - 1 ≤ s.repeatCounter; omega)
  · intro hnc hpos
    simp only [playStep, setHoldState]
    split_ifs <;>
      first
        | exact (setStateFromEnd_spec _ _).2 hpos
        | exact (setStateFromStart_spec _ _).2 hpos
        | (show ¬s.state = TweenState.COMPLETE; exact hnc)
        | simp

/-- One `update` tick lowers the repeat counter by at most one, and cannot
complete a non-complete unit whose counter is positive. -/
theorem update_spec (s : BaseTweenData) (delta : ℚ) :
    s.repeatCounter - 1 ≤ (update s delta).repeatCounter ∧
    (s.state ≠ TweenState.COMPLETE → 0 < s.repeatCounter →
      (update s delta).state ≠ TweenState.COMPLETE) := by
  constructor
  · simp only [update, setPendingRenderState, setPlayingForwardState, dispatchEvent]
    split_ifs <;>
      first
        | exact (playStep_spec _ _).1
        | exact (setStateFromEnd_spec _ _).1
        | (show s.repeatCounter - 1 ≤ s.repeatCounter; omega)
  · intro hnc hpos
    simp only [update, setPendingRenderState, setPlayingForwardState, dispatchEvent]
    split_ifs <;>
      first
        | exact (playStep_spec _ _).2 (fun h => TweenState.noConfusion h) hpos
        | exact (playStep_spec _ _).2 hnc hpos
        | exact (setStateFromEnd_spec _ _).2 hpos
        | (show ¬s.state = TweenState.COMPLETE; exact hnc)
        | exact hnc
        | simp

/-- Fewer ticks than the current repeat counter can never complete the unit. -/
theorem foldl_update_not_complete (deltas : List ℚ) : ∀ s : BaseTweenData,
    s.state ≠ TweenState.COMPLETE → (deltas.length : Int) < s.repeatCounter →
    (deltas.foldl update s).state ≠ TweenState.COMPLETE := by
  induction deltas with
  | nil =>
    intro s h1 h2
    simpa using h1
  | cons d ds ih =>
    intro s h1 h2
    have hlen : ((d :: ds).length : Int) = (ds.length : Int) + 1 := by
      push_cast [List.length_cons]
      ring
    have h3 := (update_spec s d).1
    have h4 := (update_spec s d).2 h1 (by omega)
    show (ds.foldl update (update s d)).state ≠ TweenState.COMPLETE
    exact ih (update s d) h4 (by omega)

/-- Claim C6: `reset()` computes `t1 = duration + hold (+ duration if yoyo)`,
`t2 = t1 + repeatDelay`, and `totalDuration = delay + t1`, plus `t2 * repeat`
when `repeat > 0` and plus `t2 * TWEEN_CONST.MAX` when `repeat = -1`; in the
latter case the owning tween's `isInfinite` becomes true and the repeat counter
is set to the large sentinel, so `COMPLETE` is never reached by any sequence of
fewer than `TWEEN_CONST.MAX` update ticks. -/
theorem infinite_repeat_reset (s : BaseTweenData) :
    (s.repeatCount = -1 →
      (reset s).totalDuration = (reset s).delay +
        (s.duration + s.hold + (if s.yoyo then s.duration else 0)) +
        ((s.duration + s.hold + (if s.yoyo then s.duration else 0)) + s.repeatDelay) *
          (TWEEN_CONST_MAX : ℚ) ∧
      (reset s).tween.isInfinite = true ∧
      (reset s).repeatCounter = TWEEN_CONST_MAX) ∧
    (0 < s.repeatCount →
      (reset s).totalDuration = (reset s).delay +
        (s.duration + s.hold + (if s.yoyo then s.duration else 0)) +
        ((s.duration + s.hold + (if s.yoyo then s.duration else 0)) + s.repeatDelay) *
          (s.repeatCount : ℚ)) ∧
    (s.repeatCount ≠ -1 → s.repeatCount ≤ 0 →
      (reset s).totalDuration = (reset s).delay +
        (s.duration + s.hold + (if s.yoyo then s.duration else 0))) ∧
    (s.repeatCount = -1 → ∀ deltas : List ℚ,
      (deltas.length : Int) < TWEEN_CONST_MAX →
      (deltas.foldl update (reset s)).state ≠ TweenState.COMPLETE) := by
  refine ⟨fun h => ⟨?_, ?_, ?_⟩, fun h => ?_, fun h1 h2 => ?_, fun h deltas hlen => ?_⟩
  · simp only [reset]
    rw [if_pos h]
  · simp only [reset]
    rw [if_pos h]
  · simp only [reset]
    rw [if_pos h]
  · simp only [reset]
    rw [if_neg (show ¬(s.repeatCount = -1) by omega), if_pos h]
  · simp only [reset]
    rw [if_neg h1, if_neg (show ¬(s.repeatCount > 0) by omega)]
    ring
  · have hcnt : (reset s).repeatCounter = TWEEN_CONST_MAX := by
      show (if s.repeatCount = -1 then TWEEN_CONST_MAX else s.repeatCount) =
        TWEEN_CONST_MAX
      rw [if_pos h]
    have hst : (reset s).state ≠ TweenState.COMPLETE := by
      show (if s.getDelay s.target.value s.key 0 s.targetIndex s.tween.totalTargets > 0
        then TweenState.DELAY else TweenState.PENDING_RENDER) ≠ TweenState.COMPLETE
      split_ifs <;> simp
    exact foldl_update_not_complete deltas (reset s) hst (by omega)

/-- Claim C6 (witness): the concrete unbounded unit — after `reset()` the
owner's `isInfinite` is true, the counter is the sentinel, and a tick does not
complete it. -/
theorem infinite_repeat_reset_witness :
    c6unit.repeatCount = -1 ∧
    (reset c6unit).tween.isInfinite = true ∧
    (reset c6unit).repeatCounter = TWEEN_CONST_MAX ∧
    (([100] : List ℚ).foldl update (reset c6unit)).state ≠ TweenState.COMPLETE :=
  ⟨by decide,
   ((infinite_repeat_reset c6unit).1 (by decide)).2.1,
   ((infinite_repeat_reset c6unit).1 (by decide)).2.2,
   (infinite_repeat_reset c6unit).2.2.2 (by decide) [100] (by decide)⟩
